import Mathlib

/-!
Shallow embedding of the chat-room broadcast core of the `chats` repository:
the in-memory storage backend (`server/storage.ts`, class `MemStorage`) and
the WebSocket protocol handler (`registerRoutes`: the `ws.on("message")`
dispatch, the `ws.on("close")` handler and `broadcastToChatRoom`).

Modelling conventions:
* `randomUUID()` ids and `new Date()` timestamps are modelled by the counters
  `Store.nextId` / `Store.now`, bumped on every record creation; only their
  freshness/monotonicity matters to the properties proved here.
* JavaScript truthiness of string fields (`if (message.chatRoomId && ...)`)
  is modelled by `strTruthy` / `optTruthy`: a string is truthy iff non-empty,
  an absent optional field is falsy.
* The mutable `Map` fields of `MemStorage` are modelled as total functions
  with default `[]`, matching `this.messages.get(id) || []`.
* The set `wss.clients` is a list of `Conn` records; the ad hoc fields
  `ws.chatRoomId` / `ws.userName` of `ExtendedWebSocket` are `Option String`
  fields of `Conn`; `readyState === WebSocket.OPEN` is the `isOpen` flag.
* Broadcast side effects are logged: `World.broadcasts` records each call of
  `broadcastToChatRoom` (one entry per call), `World.sent` records each
  individual delivery (`client.send`).
-/

namespace Chats

/-- A stored message record (`Message` in `shared/schema.ts`):
id, room, author, body, type tag, timestamp. -/
structure Message where
  id : Nat
  chatRoomId : String
  userName : String
  content : String
  messageType : String
  timestamp : Nat
deriving Repr, DecidableEq

/-- A participant record (`ChatParticipant` in `shared/schema.ts`). -/
structure ChatParticipant where
  id : Nat
  chatRoomId : String
  userName : String
  joinedAt : Nat
  isActive : Bool
deriving Repr, DecidableEq

/-- Insert payload for `createMessage` (`InsertMessage`): `messageType`
is optional. -/
structure InsertMessage where
  chatRoomId : String
  userName : String
  content : String
  messageType : Option String
deriving Repr, DecidableEq

/-- Insert payload for `addParticipant` (`InsertParticipant`): `isActive`
is optional. -/
structure InsertParticipant where
  chatRoomId : String
  userName : String
  isActive : Option Bool
deriving Repr, DecidableEq

/-- JavaScript `o || d` on an optional string: an absent or empty string
falls back to the default. -/
def jsOrString (o : Option String) (d : String) : String :=
  match o with
  | none => d
  | some s => if s = "" then d else s

/-- The state of a `MemStorage` instance: per-room message log, per-room
participant list, plus counters standing in for `randomUUID()` and
`new Date()`. -/
structure Store where
  messages : String → List Message
  participants : String → List ChatParticipant
  nextId : Nat
  now : Nat

/-- A freshly constructed `MemStorage` (all maps empty). -/
def emptyStore : Store := ⟨fun _ => [], fun _ => [], 0, 0⟩

namespace MemStorage

/-- JavaScript `Array.prototype.slice` with a single start argument:
a non-negative start drops that many elements (clamped at the length);
a negative start keeps the last `|start|` elements (clamped at 0). -/
def jsSlice {α : Type} (l : List α) (start : Int) : List α :=
  if 0 ≤ start then l.drop start.toNat
  else l.drop (l.length - start.natAbs)

/-- `MemStorage.getMessages`: `(this.messages.get(chatRoomId) || []).slice(-limit)`. -/
def getMessages (s : Store) (chatRoomId : String) (limit : Nat) : List Message :=
  jsSlice (s.messages chatRoomId) (-(limit : Int))

/-- `MemStorage.getMessageCount`: `(this.messages.get(chatRoomId) || []).length`. -/
def getMessageCount (s : Store) (chatRoomId : String) : Nat :=
  (s.messages chatRoomId).length

/-- `MemStorage.getParticipants`. -/
def getParticipants (s : Store) (chatRoomId : String) : List ChatParticipant :=
  s.participants chatRoomId

/-- `MemStorage.createMessage`: builds the record (defaulting `messageType`
to `"user"` via `||`), pushes it onto the room's log. -/
def createMessage (s : Store) (im : InsertMessage) : Message × Store :=
  let message : Message :=
    { id := s.nextId
      chatRoomId := im.chatRoomId
      userName := im.userName
      content := im.content
      messageType := jsOrString im.messageType "user"
      timestamp := s.now }
  (message,
   { s with
       messages := fun r =>
         if r = im.chatRoomId then s.messages im.chatRoomId ++ [message]
         else s.messages r
       nextId := s.nextId + 1
       now := s.now + 1 })

/-- `MemStorage.addParticipant`: removes any existing participant with the
same name in the room, then pushes the new record (`isActive` defaults to
`true` via `??`). -/
def addParticipant (s : Store) (ip : InsertParticipant) : ChatParticipant × Store :=
  let participant : ChatParticipant :=
    { id := s.nextId
      chatRoomId := ip.chatRoomId
      userName := ip.userName
      joinedAt := s.now
      isActive := ip.isActive.getD true }
  let filtered :=
    ((s.participants ip.chatRoomId).filter (fun p => p.userName != ip.userName)) ++ [participant]
  (participant,
   { s with
       participants := fun r =>
         if r = ip.chatRoomId then filtered else s.participants r
       nextId := s.nextId + 1
       now := s.now + 1 })

/-- `MemStorage.removeParticipant`: filters out every participant with the
given name; returns whether the list shrank. -/
def removeParticipant (s : Store) (chatRoomId userName : String) : Bool × Store :=
  let roomParticipants := s.participants chatRoomId
  let filtered := roomParticipants.filter (fun p => p.userName != userName)
  (decide (filtered.length < roomParticipants.length),
   { s with
       participants := fun r =>
         if r = chatRoomId then filtered else s.participants r })

/-- `MemStorage.getActiveParticipantCount`: count of participants with
`isActive` in the room. -/
def getActiveParticipantCount (s : Store) (chatRoomId : String) : Nat :=
  ((s.participants chatRoomId).filter (fun p => p.isActive)).length

end MemStorage

/-- The tag of a decoded inbound frame (`WebSocketMessage.type`). -/
inductive FrameType where
  | join
  | leave
  | message
  | typing
deriving Repr, DecidableEq

/-- A decoded inbound frame (`WebSocketMessage` in `routes.ts`):
`chatRoomId` is declared required, the other fields optional; all are
re-checked for truthiness by the handler. -/
structure WSMessage where
  type : FrameType
  chatRoomId : String
  userName : Option String
  content : Option String
  messageType : Option String
deriving Repr, DecidableEq

/-- A live connection (`ExtendedWebSocket`): identity, open flag, and the
ad hoc room/name tags set by the join handler. -/
structure Conn where
  cid : Nat
  isOpen : Bool
  chatRoomId : Option String
  userName : Option String
deriving Repr, DecidableEq

/-- An outbound broadcast payload. -/
inductive Payload where
  | userJoined (userName chatRoomId : String)
  | userLeft (userName chatRoomId : String)
  | newMessage (message : Message)
  | typing (userName chatRoomId : String)
deriving Repr, DecidableEq

/-- One `client.send` delivery: which connection received which payload. -/
structure Delivery where
  recipient : Nat
  payload : Payload
deriving Repr, DecidableEq

/-- The whole server state: `wss.clients`, the storage singleton, and the
observable broadcast history. -/
structure World where
  clients : List Conn
  store : Store
  broadcasts : List (String × Payload)
  sent : List Delivery

/-- Truthiness of an optional string field: present and non-empty. -/
def optTruthy (o : Option String) : Bool :=
  match o with
  | none => false
  | some s => s != ""

/-- Truthiness of a required string field: non-empty. -/
def strTruthy (s : String) : Bool := s != ""

/-- The `client !== excludeWs` check of `broadcastToChatRoom` (object
identity modelled by `cid`). -/
def excludeOk (excl : Option Nat) (c : Conn) : Bool :=
  match excl with
  | none => true
  | some e => c.cid != e

/-- The connections that `broadcastToChatRoom` sends to: not the excluded
socket, open, and tagged with the target room. -/
def wsRecipients (clients : List Conn) (chatRoomId : String) (excl : Option Nat) : List Conn :=
  clients.filter (fun c => excludeOk excl c && c.isOpen && c.chatRoomId == some chatRoomId)

/-- `broadcastToChatRoom`: logs the broadcast call and one delivery per
recipient. -/
def broadcastToChatRoom (w : World) (chatRoomId : String) (data : Payload)
    (excl : Option Nat) : World :=
  { w with
      broadcasts := w.broadcasts ++ [(chatRoomId, data)]
      sent := w.sent ++ (wsRecipients w.clients chatRoomId excl).map
        (fun c => Delivery.mk c.cid data) }

/-- `ws.chatRoomId = ...; ws.userName = ...` in the join case: retag the
connection identified by `cid`. -/
def setAssoc (clients : List Conn) (cid : Nat) (room userName : String) : List Conn :=
  clients.map (fun c =>
    if c.cid == cid then { c with chatRoomId := some room, userName := some userName } else c)

/-- When the `close` event fires the socket's `readyState` is no longer
`OPEN`: mark the connection closed. -/
def markClosed (clients : List Conn) (cid : Nat) : List Conn :=
  clients.map (fun c => if c.cid == cid then { c with isOpen := false } else c)

/-- The `ws.on("message")` dispatch of `registerRoutes`, for the frame `m`
arriving on the connection identified by `cid`. Faithful to the source:
the join case retags the socket before storage and broadcast; the leave
case reads the socket's tags but never clears them; the message and typing
cases use the frame's own fields, not the socket's tags. -/
def handleMessage (w : World) (cid : Nat) (m : WSMessage) : World :=
  match w.clients.find? (fun c => c.cid == cid) with
  | none => w
  | some ws =>
    match m.type with
    | .join =>
      if strTruthy m.chatRoomId && optTruthy m.userName then
        let userName := m.userName.getD ""
        let w1 : World := { w with clients := setAssoc w.clients cid m.chatRoomId userName }
        let st1 := (MemStorage.addParticipant w1.store
          ⟨m.chatRoomId, userName, some true⟩).2
        let st2 := (MemStorage.createMessage st1
          ⟨m.chatRoomId, "System", userName ++ " joined the chat", some "system"⟩).2
        broadcastToChatRoom { w1 with store := st2 } m.chatRoomId
          (.userJoined userName m.chatRoomId) none
      else w
    | .leave =>
      if optTruthy ws.chatRoomId && optTruthy ws.userName then
        let room := ws.chatRoomId.getD ""
        let name := ws.userName.getD ""
        let st1 := (MemStorage.removeParticipant w.store room name).2
        let st2 := (MemStorage.createMessage st1
          ⟨room, "System", name ++ " left the chat", some "system"⟩).2
        broadcastToChatRoom { w with store := st2 } room (.userLeft name room) none
      else w
    | .message =>
      if strTruthy m.chatRoomId && optTruthy m.userName && optTruthy m.content then
        let saved := MemStorage.createMessage w.store
          ⟨m.chatRoomId, m.userName.getD "", m.content.getD "",
           some (jsOrString m.messageType "user")⟩
        broadcastToChatRoom { w with store := saved.2 } m.chatRoomId
          (.newMessage saved.1) none
      else w
    | .typing =>
      if strTruthy m.chatRoomId && optTruthy m.userName then
        broadcastToChatRoom w m.chatRoomId
          (.typing (m.userName.getD "") m.chatRoomId) (some cid)
      else w

/-- The `ws.on("close")` handler: the socket is no longer open when it
runs; if the socket still carries room/name tags, the leave sequence is
synthesized. -/
def handleClose (w : World) (cid : Nat) : World :=
  let w0 : World := { w with clients := markClosed w.clients cid }
  match w0.clients.find? (fun c => c.cid == cid) with
  | none => w0
  | some ws =>
    if optTruthy ws.chatRoomId && optTruthy ws.userName then
      let room := ws.chatRoomId.getD ""
      let name := ws.userName.getD ""
      let st1 := (MemStorage.removeParticipant w0.store room name).2
      let st2 := (MemStorage.createMessage st1
        ⟨room, "System", name ++ " left the chat", some "system"⟩).2
      broadcastToChatRoom { w0 with store := st2 } room (.userLeft name room) none
    else w0

/-- Number of system messages with the given content in a room's log. -/
def systemMessageCount (s : Store) (room content : String) : Nat :=
  ((s.messages room).filter
    (fun msg => msg.messageType == "system" && msg.content == content)).length

/-- Number of broadcast calls for a given room and payload. -/
def broadcastCount (w : World) (room : String) (data : Payload) : Nat :=
  (w.broadcasts.filter (fun b => b.1 == room && b.2 == data)).length

/-- Number of active participant records with a given name in a room. -/
def activeNameCount (s : Store) (room userName : String) : Nat :=
  ((s.participants room).filter (fun p => p.isActive && p.userName == userName)).length

/-- A world with a single open connection joined to room `"r1"` as
`"Alice"`. -/
def joinedWorld : World :=
  { clients := [⟨0, true, some "r1", some "Alice"⟩]
    store := emptyStore
    broadcasts := []
    sent := [] }

/-- A world with a single open connection in the Unjoined state. -/
def freshWorld : World :=
  { clients := [⟨0, true, none, none⟩]
    store := emptyStore
    broadcasts := []
    sent := [] }

/-- An explicit leave frame. -/
def leaveFrame : WSMessage := ⟨.leave, "r1", none, none, none⟩

/-- The store `emptyStore` after one `createMessage` into room `"r1"`. -/
def oneMsgStore : Store :=
  (MemStorage.createMessage emptyStore ⟨"r1", "Alice", "hi", none⟩).2

/-- The store `emptyStore` after one `addParticipant` for `("r1", "Alice")`. -/
def oneParticipantStore : Store :=
  (MemStorage.addParticipant emptyStore ⟨"r1", "Alice", none⟩).2

/-- `jsSlice` at a negated natural: `slice(-0)` is `slice(0)` (everything),
otherwise the last `limit` elements. -/
theorem jsSlice_neg {α : Type} (l : List α) (limit : Nat) :
    MemStorage.jsSlice l (-(limit : Int))
      = if limit = 0 then l else l.drop (l.length - limit) := by
  unfold MemStorage.jsSlice
  rcases Nat.eq_zero_or_pos limit with h | h
  · subst h; simp
  · rw [if_neg (by omega), if_neg (by omega)]
    simp

/-- What `addParticipant` does to each room's participant list. -/
theorem addParticipant_participants (s : Store) (ip : InsertParticipant) (r : String) :
    ((MemStorage.addParticipant s ip).2).participants r =
      if r = ip.chatRoomId then
        ((s.participants ip.chatRoomId).filter (fun p => p.userName != ip.userName))
          ++ [⟨s.nextId, ip.chatRoomId, ip.userName, s.now, ip.isActive.getD true⟩]
      else s.participants r := by
  simp [MemStorage.addParticipant]

/-- `addParticipant` leaves the message logs untouched. -/
theorem addParticipant_messages (s : Store) (ip : InsertParticipant) :
    ((MemStorage.addParticipant s ip).2).messages = s.messages := by
  simp [MemStorage.addParticipant]

/-- What `createMessage` does to each room's message log. -/
theorem createMessage_messages (s : Store) (im : InsertMessage) (r : String) :
    ((MemStorage.createMessage s im).2).messages r =
      if r = im.chatRoomId then
        s.messages im.chatRoomId ++ [(MemStorage.createMessage s im).1]
      else s.messages r := by
  simp [MemStorage.createMessage]

/-- `createMessage` leaves the participant lists untouched. -/
theorem createMessage_participants (s : Store) (im : InsertMessage) :
    ((MemStorage.createMessage s im).2).participants = s.participants := by
  simp [MemStorage.createMessage]

/-- What `removeParticipant` does to each room's participant list. -/
theorem removeParticipant_participants (s : Store) (room userName r : String) :
    ((MemStorage.removeParticipant s room userName).2).participants r =
      if r = room then
        (s.participants room).filter (fun p => p.userName != userName)
      else s.participants r := by
  simp [MemStorage.removeParticipant]

/-- `removeParticipant` leaves the message logs untouched. -/
theorem removeParticipant_messages (s : Store) (room userName : String) :
    ((MemStorage.removeParticipant s room userName).2).messages = s.messages := by
  simp [MemStorage.removeParticipant]

/-- C9: in the in-memory store, `getMessages(room, 0)` evaluates
`slice(-0)`, i.e. `slice(0)`: the entire log is returned, a limit of zero
does not bound the result. -/
theorem getMessages_zero_returns_entire_log (s : Store) (room : String) :
    MemStorage.getMessages s room 0 = s.messages room := by
  simp [MemStorage.getMessages, MemStorage.jsSlice]

/-- C1: the leave handler never clears `ws.chatRoomId` / `ws.userName`, so
processing two consecutive leave frames on a joined connection appends the
"left the chat" system message twice and emits the `userLeft` broadcast
twice — and a transport close right after an explicit leave synthesizes the
leave sequence again. The second leave is not a no-op. -/
theorem double_leave_emits_two_left_messages :
    systemMessageCount
        (handleMessage (handleMessage joinedWorld 0 leaveFrame) 0 leaveFrame).store
        "r1" "Alice left the chat" = 2 ∧
    broadcastCount (handleMessage (handleMessage joinedWorld 0 leaveFrame) 0 leaveFrame)
        "r1" (.userLeft "Alice" "r1") = 2 ∧
    systemMessageCount (handleClose (handleMessage joinedWorld 0 leaveFrame) 0).store
        "r1" "Alice left the chat" = 2 ∧
    broadcastCount (handleClose (handleMessage joinedWorld 0 leaveFrame) 0)
        "r1" (.userLeft "Alice" "r1") = 2 := by
  refine ⟨rfl, rfl, rfl, rfl⟩

/-- C3 counterexample: with one message stored in room `"r1"`, the call
`getMessages("r1", 0)` returns one entry, so the bound "at most `limit`
entries" fails at `limit = 0`. -/
theorem getMessages_zero_not_bounded :
    (MemStorage.getMessages oneMsgStore "r1" 0).length = 1 ∧
    ¬ ((MemStorage.getMessages oneMsgStore "r1" 0).length ≤ 0) := by
  constructor <;> decide

/-- C3 (amended to `limit ≥ 1`): for every positive limit, `getMessages`
returns at most `limit` entries, namely the most recent ones — the final
segment of the room's chronological log — and calling it with
`limit = count(room)` returns the entire log. -/
theorem getMessages_bound_of_pos (s : Store) (room : String) (limit : Nat)
    (h : 1 ≤ limit) :
    (MemStorage.getMessages s room limit).length ≤ limit ∧
    MemStorage.getMessages s room limit
      = (s.messages room).drop ((s.messages room).length - limit) ∧
    MemStorage.getMessages s room (MemStorage.getMessageCount s room)
      = s.messages room := by
  unfold MemStorage.getMessages MemStorage.getMessageCount
  rw [jsSlice_neg, jsSlice_neg, if_neg (by omega)]
  refine ⟨?_, rfl, ?_⟩
  · rw [List.length_drop]; omega
  · rcases Nat.eq_zero_or_pos (s.messages room).length with h0 | h0
    · rw [if_pos h0, List.length_eq_zero.mp h0]
    · rw [if_neg (by omega), Nat.sub_self, List.drop_zero]

/-- C3 witness: the amended bound instantiated at the one-message store
with `limit = 1`. -/
theorem getMessages_bound_of_pos_witness :
    (MemStorage.getMessages oneMsgStore "r1" 1).length ≤ 1 ∧
    MemStorage.getMessages oneMsgStore "r1" 1
      = (oneMsgStore.messages "r1").drop ((oneMsgStore.messages "r1").length - 1) ∧
    MemStorage.getMessages oneMsgStore "r1" (MemStorage.getMessageCount oneMsgStore "r1")
      = oneMsgStore.messages "r1" :=
  getMessages_bound_of_pos oneMsgStore "r1" 1 (by decide)

/-- C10: `removeParticipant(room, name)` returns `true` iff a participant
with that name existed in the room; afterwards none with that name remain
there, and every other room's participant list is unchanged. -/
theorem removeParticipant_removes_iff (s : Store) (room userName : String) :
    ((MemStorage.removeParticipant s room userName).1 = true ↔
      ∃ p ∈ s.participants room, p.userName = userName) ∧
    (∀ p ∈ ((MemStorage.removeParticipant s room userName).2).participants room,
      p.userName ≠ userName) ∧
    (∀ r, r ≠ room →
      ((MemStorage.removeParticipant s room userName).2).participants r
        = s.participants r) := by
  refine ⟨?_, ?_, ?_⟩
  · unfold MemStorage.removeParticipant
    simp only [decide_eq_true_eq, List.length_filter_lt_length_iff_exists]
    constructor
    · rintro ⟨p, hp, hne⟩
      exact ⟨p, hp, by simpa using hne⟩
    · rintro ⟨p, hp, hname⟩
      exact ⟨p, hp, by simp [hname]⟩
  · intro p hp
    rw [removeParticipant_participants, if_pos rfl] at hp
    have := (List.mem_filter.mp hp).2
    simpa using this
  · intro r hr
    rw [removeParticipant_participants, if_neg hr]

/-- C10 witness: instantiated at the store holding the single participant
`("r1", "Alice")`. -/
theorem removeParticipant_removes_iff_witness :
    ((MemStorage.removeParticipant oneParticipantStore "r1" "Alice").1 = true ↔
      ∃ p ∈ oneParticipantStore.participants "r1", p.userName = "Alice") ∧
    (∀ p ∈ ((MemStorage.removeParticipant oneParticipantStore "r1" "Alice").2).participants "r1",
      p.userName ≠ "Alice") ∧
    (∀ r, r ≠ "r1" →
      ((MemStorage.removeParticipant oneParticipantStore "r1" "Alice").2).participants r
        = oneParticipantStore.participants r) :=
  removeParticipant_removes_iff oneParticipantStore "r1" "Alice"

/-- Filtering twice by the same predicate is the same as filtering once. -/
theorem filter_filter_self {α : Type} (l : List α) (q : α → Bool) :
    (l.filter q).filter q = l.filter q := by
  rw [List.filter_filter]
  exact List.filter_congr (fun x _ => Bool.and_self (q x))

/-- C5: adding the participant `(room, name)` twice in a row (as the join
handler does, with `isActive: true`) leaves `getActiveParticipantCount`
unchanged after the second call, and every `addParticipant` call preserves
the invariant that at most one active participant record exists per
`(room, name)`. -/
theorem addParticipant_dedup_invariant (s : Store) (room userName : String)
    (ip : InsertParticipant) (r n : String) (hinv : activeNameCount s r n ≤ 1) :
    MemStorage.getActiveParticipantCount
        ((MemStorage.addParticipant
          ((MemStorage.addParticipant s ⟨room, userName, some true⟩).2)
          ⟨room, userName, some true⟩).2) room
      = MemStorage.getActiveParticipantCount
          ((MemStorage.addParticipant s ⟨room, userName, some true⟩).2) room ∧
    activeNameCount ((MemStorage.addParticipant s ip).2) r n ≤ 1 := by
  constructor
  · unfold MemStorage.getActiveParticipantCount
    simp only [addParticipant_participants, if_pos rfl]
    simp [List.filter_append, filter_filter_self]
  · unfold activeNameCount at hinv ⊢
    rw [addParticipant_participants]
    by_cases hr : r = ip.chatRoomId
    · rw [hr] at hinv ⊢
      rw [if_pos rfl, List.filter_append, List.length_append]
      by_cases hn : n = ip.userName
      · have hleft :
            (((s.participants ip.chatRoomId).filter (fun p => p.userName != ip.userName)).filter
              (fun p => p.isActive && p.userName == n)) = [] := by
          rw [List.filter_filter, List.filter_eq_nil_iff]
          intro a _
          simp only [Bool.and_eq_true, beq_iff_eq, bne_iff_ne, not_and]
          rintro ⟨_, h1⟩ h2
          exact h2 (h1.trans hn)
        have hright :
            (List.filter (fun p => p.isActive && p.userName == n)
              ([⟨s.nextId, ip.chatRoomId, ip.userName, s.now, ip.isActive.getD true⟩] :
                List ChatParticipant)).length ≤ 1 := by
          calc (List.filter (fun p => p.isActive && p.userName == n)
                  ([⟨s.nextId, ip.chatRoomId, ip.userName, s.now, ip.isActive.getD true⟩] :
                    List ChatParticipant)).length
              ≤ [(⟨s.nextId, ip.chatRoomId, ip.userName, s.now, ip.isActive.getD true⟩ : ChatParticipant)].length :=
                List.length_filter_le _ _
            _ = 1 := rfl
        rw [hleft]
        simpa using hright
      · have hright :
            (List.filter (fun p => p.isActive && p.userName == n)
              ([⟨s.nextId, ip.chatRoomId, ip.userName, s.now, ip.isActive.getD true⟩] :
                List ChatParticipant)) = [] := by
          have hb : (ip.userName == n) = false := by
            rw [beq_eq_false_iff_ne]
            exact fun hh => hn hh.symm
          simp [hb]
        have hleft :
            (((s.participants ip.chatRoomId).filter (fun p => p.userName != ip.userName)).filter
              (fun p => p.isActive && p.userName == n)).length ≤ 1 := by
          rw [List.filter_filter]
          calc (List.filter
                  (fun a => (a.isActive && a.userName == n) && a.userName != ip.userName)
                  (s.participants ip.chatRoomId)).length
              = List.countP
                  (fun a => (a.isActive && a.userName == n) && a.userName != ip.userName)
                  (s.participants ip.chatRoomId) := (List.countP_eq_length_filter _ _).symm
            _ ≤ List.countP (fun a => a.isActive && a.userName == n) (s.participants ip.chatRoomId) :=
                List.countP_mono_left (fun x _ h => ((Bool.and_eq_true _ _).mp h).1)
            _ = (List.filter (fun a => a.isActive && a.userName == n)
                  (s.participants ip.chatRoomId)).length := List.countP_eq_length_filter _ _
            _ ≤ 1 := hinv
        rw [hright]
        simpa using hleft
    · rw [if_neg hr]
      exact hinv

/-- C5 witness: instantiated at the empty store with `("r1", "Alice")`. -/
theorem addParticipant_dedup_invariant_witness :
    MemStorage.getActiveParticipantCount
        ((MemStorage.addParticipant
          ((MemStorage.addParticipant emptyStore ⟨"r1", "Alice", some true⟩).2)
          ⟨"r1", "Alice", some true⟩).2) "r1"
      = MemStorage.getActiveParticipantCount
          ((MemStorage.addParticipant emptyStore ⟨"r1", "Alice", some true⟩).2) "r1" ∧
    activeNameCount ((MemStorage.addParticipant emptyStore ⟨"r1", "Alice", none⟩).2) "r1" "Alice" ≤ 1 :=
  addParticipant_dedup_invariant emptyStore "r1" "Alice" ⟨"r1", "Alice", none⟩ "r1" "Alice"
    (by decide)

/-- A world with two open connections joined to distinct rooms:
connection 0 in `"r1"` as `"Alice"`, connection 1 in `"r2"` as `"Bob"`. -/
def twoRoomWorld : World :=
  { clients := [⟨0, true, some "r1", some "Alice"⟩, ⟨1, true, some "r2", some "Bob"⟩]
    store := emptyStore
    broadcasts := []
    sent := [] }

/-- C6: a broadcast to room A appends deliveries exactly to the recipients
of room A; every such recipient's stored association is A, and a connection
associated only with a distinct room B is never among them. -/
theorem broadcast_room_isolation (w : World) (roomA : String) (data : Payload)
    (excl : Option Nat) :
    (broadcastToChatRoom w roomA data excl).sent
      = w.sent ++ (wsRecipients w.clients roomA excl).map (fun c => Delivery.mk c.cid data) ∧
    (∀ c ∈ wsRecipients w.clients roomA excl, c.chatRoomId = some roomA) ∧
    (∀ c ∈ w.clients, ∀ roomB, roomB ≠ roomA → c.chatRoomId = some roomB →
      c ∉ wsRecipients w.clients roomA excl) := by
  have hmem : ∀ c, c ∈ wsRecipients w.clients roomA excl → c.chatRoomId = some roomA := by
    intro c hc
    have h2 := (List.mem_filter.mp hc).2
    simp only [Bool.and_eq_true, beq_iff_eq] at h2
    exact h2.2
  refine ⟨rfl, hmem, ?_⟩
  intro c _ roomB hne hB hc
  exact hne (Option.some.inj ((hB.symm.trans (hmem c hc))))

/-- C6 witness: instantiated at the two-room world, broadcasting a typing
payload to room `"r1"`. -/
theorem broadcast_room_isolation_witness :
    (broadcastToChatRoom twoRoomWorld "r1" (.typing "Alice" "r1") none).sent
      = twoRoomWorld.sent ++ (wsRecipients twoRoomWorld.clients "r1" none).map
          (fun c => Delivery.mk c.cid (.typing "Alice" "r1")) ∧
    (∀ c ∈ wsRecipients twoRoomWorld.clients "r1" none, c.chatRoomId = some "r1") ∧
    (∀ c ∈ twoRoomWorld.clients, ∀ roomB, roomB ≠ "r1" → c.chatRoomId = some roomB →
      c ∉ wsRecipients twoRoomWorld.clients "r1" none) :=
  broadcast_room_isolation twoRoomWorld "r1" (.typing "Alice" "r1") none

/-- C7: a typing frame from a sender joined to the frame's room is never
persisted (the store is untouched), its delivery list is exactly the open
connections of that room other than the sender, and no delivery targets
the sender. -/
theorem typing_transient_excludes_sender (w : World) (cid : Nat) (ws : Conn)
    (m : WSMessage) (room : String)
    (hf : w.clients.find? (fun c => c.cid == cid) = some ws)
    (ht : m.type = .typing)
    (hroom : m.chatRoomId = room) (hws : ws.chatRoomId = some room)
    (hr : strTruthy m.chatRoomId = true) (hu : optTruthy m.userName = true) :
    (handleMessage w cid m).store = w.store ∧
    (handleMessage w cid m).clients = w.clients ∧
    (handleMessage w cid m).sent
      = w.sent ++ (wsRecipients w.clients room (some cid)).map
          (fun c => Delivery.mk c.cid (.typing (m.userName.getD "") room)) ∧
    (∀ c, c ∈ wsRecipients w.clients room (some cid) ↔
      c ∈ w.clients ∧ c.cid ≠ cid ∧ c.isOpen = true ∧ c.chatRoomId = some room) ∧
    (∀ d ∈ (handleMessage w cid m).sent, d ∈ w.sent ∨ d.recipient ≠ cid) := by
  subst hroom
  have hstep : handleMessage w cid m
      = broadcastToChatRoom w m.chatRoomId
          (.typing (m.userName.getD "") m.chatRoomId) (some cid) := by
    simp only [handleMessage, hf, ht, hr, hu, Bool.and_self, if_true]
  rw [hstep]
  refine ⟨rfl, rfl, rfl, ?_, ?_⟩
  · intro c
    simp [wsRecipients, excludeOk, List.mem_filter, and_assoc]
  · intro d hd
    rcases List.mem_append.mp hd with h | h
    · exact Or.inl h
    · obtain ⟨c, hc, rfl⟩ := List.mem_map.mp h
      have h2 := (List.mem_filter.mp hc).2
      simp only [excludeOk, Bool.and_eq_true, bne_iff_ne] at h2
      exact Or.inr h2.1.1

/-- A world with three open connections in room `"r1"`. -/
def threeMemberWorld : World :=
  { clients := [⟨0, true, some "r1", some "Alice"⟩, ⟨1, true, some "r1", some "Bob"⟩,
                ⟨2, true, some "r1", some "Carol"⟩]
    store := emptyStore
    broadcasts := []
    sent := [] }

/-- A typing frame from `"Alice"` in room `"r1"`. -/
def typingFrame : WSMessage := ⟨.typing, "r1", some "Alice", none, none⟩

/-- C7 witness: the typing property instantiated in a three-member room,
with connection 0 typing. -/
theorem typing_transient_excludes_sender_witness :
    (handleMessage threeMemberWorld 0 typingFrame).store = threeMemberWorld.store ∧
    (handleMessage threeMemberWorld 0 typingFrame).clients = threeMemberWorld.clients ∧
    (handleMessage threeMemberWorld 0 typingFrame).sent
      = threeMemberWorld.sent ++ (wsRecipients threeMemberWorld.clients "r1" (some 0)).map
          (fun c => Delivery.mk c.cid (.typing (typingFrame.userName.getD "") "r1")) ∧
    (∀ c, c ∈ wsRecipients threeMemberWorld.clients "r1" (some 0) ↔
      c ∈ threeMemberWorld.clients ∧ c.cid ≠ 0 ∧ c.isOpen = true ∧ c.chatRoomId = some "r1") ∧
    (∀ d ∈ (handleMessage threeMemberWorld 0 typingFrame).sent,
      d ∈ threeMemberWorld.sent ∨ d.recipient ≠ 0) :=
  typing_transient_excludes_sender threeMemberWorld 0 ⟨0, true, some "r1", some "Alice"⟩
    typingFrame "r1" rfl rfl rfl rfl (by decide) (by decide)

/-- A valid join frame for room `"r1"` as `"Alice"`. -/
def joinFrame : WSMessage := ⟨.join, "r1", some "Alice", none, none⟩

/-- A valid join frame for room `"r2"` as `"Alice"`. -/
def joinFrameR2 : WSMessage := ⟨.join, "r2", some "Alice", none, none⟩

/-- C8: processing a valid join frame (non-empty room and name) appends
exactly one system message `"{name} joined the chat"` to that room's log,
leaves every other room's log unchanged, and emits exactly one `userJoined`
broadcast, delivered to the room's members under the updated tagging —
unconditionally, whether or not a participant record already existed. -/
theorem join_emits_one_system_message (w : World) (cid : Nat) (ws : Conn)
    (m : WSMessage)
    (hf : w.clients.find? (fun c => c.cid == cid) = some ws)
    (ht : m.type = .join)
    (hr : strTruthy m.chatRoomId = true) (hu : optTruthy m.userName = true) :
    (∃ i t, (handleMessage w cid m).store.messages m.chatRoomId
      = w.store.messages m.chatRoomId
        ++ [⟨i, m.chatRoomId, "System", m.userName.getD "" ++ " joined the chat",
             "system", t⟩]) ∧
    (∀ r, r ≠ m.chatRoomId →
      (handleMessage w cid m).store.messages r = w.store.messages r) ∧
    (handleMessage w cid m).broadcasts
      = w.broadcasts ++ [(m.chatRoomId, .userJoined (m.userName.getD "") m.chatRoomId)] ∧
    (handleMessage w cid m).sent
      = w.sent ++ (wsRecipients (setAssoc w.clients cid m.chatRoomId (m.userName.getD ""))
          m.chatRoomId none).map
          (fun c => Delivery.mk c.cid (.userJoined (m.userName.getD "") m.chatRoomId)) := by
  have hstep : handleMessage w cid m
      = broadcastToChatRoom
          { clients := setAssoc w.clients cid m.chatRoomId (m.userName.getD "")
            store := (MemStorage.createMessage
              ((MemStorage.addParticipant w.store
                ⟨m.chatRoomId, m.userName.getD "", some true⟩).2)
              ⟨m.chatRoomId, "System", m.userName.getD "" ++ " joined the chat",
               some "system"⟩).2
            broadcasts := w.broadcasts
            sent := w.sent }
          m.chatRoomId (.userJoined (m.userName.getD "") m.chatRoomId) none := by
    simp only [handleMessage, hf, ht, hr, hu, Bool.and_self, if_true]
  rw [hstep]
  refine ⟨⟨((MemStorage.addParticipant w.store
      ⟨m.chatRoomId, m.userName.getD "", some true⟩).2).nextId,
    ((MemStorage.addParticipant w.store
      ⟨m.chatRoomId, m.userName.getD "", some true⟩).2).now, ?_⟩, ?_, rfl, rfl⟩
  · simp [broadcastToChatRoom, createMessage_messages, addParticipant_messages,
      MemStorage.createMessage, jsOrString]
  · intro r hr2
    simp [broadcastToChatRoom, createMessage_messages, addParticipant_messages, hr2]

/-- C8 witness: a fresh connection joining room `"r1"` as `"Alice"`. -/
theorem join_emits_one_system_message_witness :
    (∃ i t, (handleMessage freshWorld 0 joinFrame).store.messages "r1"
      = freshWorld.store.messages "r1"
        ++ [⟨i, "r1", "System", joinFrame.userName.getD "" ++ " joined the chat",
             "system", t⟩]) ∧
    (∀ r, r ≠ "r1" →
      (handleMessage freshWorld 0 joinFrame).store.messages r
        = freshWorld.store.messages r) ∧
    (handleMessage freshWorld 0 joinFrame).broadcasts
      = freshWorld.broadcasts
        ++ [("r1", .userJoined (joinFrame.userName.getD "") "r1")] ∧
    (handleMessage freshWorld 0 joinFrame).sent
      = freshWorld.sent
        ++ (wsRecipients (setAssoc freshWorld.clients 0 "r1" (joinFrame.userName.getD ""))
            "r1" none).map
            (fun c => Delivery.mk c.cid (.userJoined (joinFrame.userName.getD "") "r1")) :=
  join_emits_one_system_message freshWorld 0 ⟨0, true, none, none⟩ joinFrame
    rfl rfl (by decide) (by decide)

/-- C2 counterexample: connection 0 is joined to `"r1"` as `"Alice"`;
a join frame for `"r2"` is not rejected — the stored association is
overwritten to `"r2"` and the join side effects run (one "joined" system
message lands in room `"r2"`). -/
theorem join_while_joined_not_rejected :
    ((handleMessage joinedWorld 0 joinFrameR2).clients.find?
        (fun c => c.cid == 0)).map Conn.chatRoomId = some (some "r2") ∧
    systemMessageCount (handleMessage joinedWorld 0 joinFrameR2).store
        "r2" "Alice joined the chat" = 1 := by
  constructor <;> rfl

/-- C2 (amended): a join frame naming any room — also a different one
while already joined — is accepted: the connection's association is
overwritten to the frame's room and name, no connection is closed (all
open flags are unchanged), and no error is surfaced. -/
theorem join_other_room_overwrites (w : World) (cid : Nat) (ws : Conn)
    (m : WSMessage)
    (hf : w.clients.find? (fun c => c.cid == cid) = some ws)
    (ht : m.type = .join)
    (hr : strTruthy m.chatRoomId = true) (hu : optTruthy m.userName = true) :
    (handleMessage w cid m).clients
      = setAssoc w.clients cid m.chatRoomId (m.userName.getD "") ∧
    (handleMessage w cid m).clients.map Conn.isOpen = w.clients.map Conn.isOpen := by
  have hstep : (handleMessage w cid m).clients
      = setAssoc w.clients cid m.chatRoomId (m.userName.getD "") := by
    simp only [handleMessage, hf, ht, hr, hu, Bool.and_self, if_true]
    rfl
  refine ⟨hstep, ?_⟩
  rw [hstep]
  unfold setAssoc
  rw [List.map_map]
  apply List.map_congr_left
  intro c _
  by_cases h : c.cid = cid <;> simp [h]

/-- C2 witness: the amended behaviour instantiated at the joined world and
the `"r2"` join frame. -/
theorem join_other_room_overwrites_witness :
    (handleMessage joinedWorld 0 joinFrameR2).clients
      = setAssoc joinedWorld.clients 0 "r2" (joinFrameR2.userName.getD "") ∧
    (handleMessage joinedWorld 0 joinFrameR2).clients.map Conn.isOpen
      = joinedWorld.clients.map Conn.isOpen :=
  join_other_room_overwrites joinedWorld 0 ⟨0, true, some "r1", some "Alice"⟩ joinFrameR2
    rfl rfl (by decide) (by decide)

/-- The message record and store that the handler's `message` case builds
from a frame's own fields (`storage.createMessage({chatRoomId: message.chatRoomId, ...})`). -/
def savedOf (w : World) (m : WSMessage) : Message × Store :=
  MemStorage.createMessage w.store
    ⟨m.chatRoomId, m.userName.getD "", m.content.getD "",
     some (jsOrString m.messageType "user")⟩

/-- A user message frame for room `"r1"` from `"Alice"`. -/
def msgFrame : WSMessage := ⟨.message, "r1", some "Alice", some "hi", none⟩

/-- C4 counterexample: connection 0 is Unjoined (no stored association),
yet its complete message frame is persisted to room `"r1"` and a
`newMessage` broadcast is emitted. -/
theorem unjoined_message_frame_persisted :
    ((handleMessage freshWorld 0 msgFrame).store.messages "r1").length = 1 ∧
    (handleMessage freshWorld 0 msgFrame).broadcasts.length = 1 := by
  constructor <;> rfl

/-- C4 (amended): the handler keys the `message` and `typing` cases on the
frame's own fields, not on the connection's state: for an Unjoined
connection, a complete message frame is persisted to the frame's room and
broadcast, a complete typing frame is broadcast without persisting, and
only a frame missing a required field is ignored; in every case the
connection's stored state is unchanged. -/
theorem unjoined_frames_use_frame_fields (w : World) (cid : Nat) (ws : Conn)
    (m : WSMessage)
    (hf : w.clients.find? (fun c => c.cid == cid) = some ws)
    (_hun : ws.chatRoomId = none)
    (hm : m.type = .message ∨ m.type = .typing) :
    (handleMessage w cid m).clients = w.clients ∧
    (m.type = .message →
      ((strTruthy m.chatRoomId && optTruthy m.userName && optTruthy m.content) = true →
        (handleMessage w cid m).store.messages m.chatRoomId
          = w.store.messages m.chatRoomId ++ [(savedOf w m).1] ∧
        (handleMessage w cid m).broadcasts
          = w.broadcasts ++ [(m.chatRoomId, .newMessage (savedOf w m).1)]) ∧
      ((strTruthy m.chatRoomId && optTruthy m.userName && optTruthy m.content) = false →
        handleMessage w cid m = w)) ∧
    (m.type = .typing →
      ((strTruthy m.chatRoomId && optTruthy m.userName) = true →
        (handleMessage w cid m).store = w.store ∧
        (handleMessage w cid m).broadcasts
          = w.broadcasts ++ [(m.chatRoomId, .typing (m.userName.getD "") m.chatRoomId)]) ∧
      ((strTruthy m.chatRoomId && optTruthy m.userName) = false →
        handleMessage w cid m = w)) := by
  rcases hm with ht | ht
  · refine ⟨?_, fun _ => ⟨?_, ?_⟩, fun htyp => absurd (ht.symm.trans htyp) (by decide)⟩
    · by_cases hc : (strTruthy m.chatRoomId && optTruthy m.userName && optTruthy m.content) = true
      · simp only [handleMessage, hf, ht, hc, if_true]
        rfl
      · simp only [handleMessage, hf, ht]
        rw [if_neg hc]
    · intro hc
      constructor
      · simp only [handleMessage, hf, ht, hc, if_true]
        simp [broadcastToChatRoom, savedOf, createMessage_messages]
      · simp only [handleMessage, hf, ht, hc, if_true]
        rfl
    · intro hc
      simp only [handleMessage, hf, ht, hc, Bool.false_eq_true, if_false]
  · refine ⟨?_, fun htyp => absurd (ht.symm.trans htyp) (by decide), fun _ => ⟨?_, ?_⟩⟩
    · by_cases hc : (strTruthy m.chatRoomId && optTruthy m.userName) = true
      · simp only [handleMessage, hf, ht, hc, if_true]
        rfl
      · simp only [handleMessage, hf, ht]
        rw [if_neg hc]
    · intro hc
      simp only [handleMessage, hf, ht, hc, if_true]
      exact ⟨rfl, rfl⟩
    · intro hc
      simp only [handleMessage, hf, ht, hc, Bool.false_eq_true, if_false]

/-- C4 witness: the amended behaviour instantiated at the fresh (Unjoined)
world and the complete message frame. -/
theorem unjoined_frames_use_frame_fields_witness :
    (handleMessage freshWorld 0 msgFrame).clients = freshWorld.clients ∧
    (msgFrame.type = .message →
      ((strTruthy msgFrame.chatRoomId && optTruthy msgFrame.userName
          && optTruthy msgFrame.content) = true →
        (handleMessage freshWorld 0 msgFrame).store.messages msgFrame.chatRoomId
          = freshWorld.store.messages msgFrame.chatRoomId ++ [(savedOf freshWorld msgFrame).1] ∧
        (handleMessage freshWorld 0 msgFrame).broadcasts
          = freshWorld.broadcasts
            ++ [(msgFrame.chatRoomId, .newMessage (savedOf freshWorld msgFrame).1)]) ∧
      ((strTruthy msgFrame.chatRoomId && optTruthy msgFrame.userName
          && optTruthy msgFrame.content) = false →
        handleMessage freshWorld 0 msgFrame = freshWorld)) ∧
    (msgFrame.type = .typing →
      ((strTruthy msgFrame.chatRoomId && optTruthy msgFrame.userName) = true →
        (handleMessage freshWorld 0 msgFrame).store = freshWorld.store ∧
        (handleMessage freshWorld 0 msgFrame).broadcasts
          = freshWorld.broadcasts
            ++ [(msgFrame.chatRoomId,
                 .typing (msgFrame.userName.getD "") msgFrame.chatRoomId)]) ∧
      ((strTruthy msgFrame.chatRoomId && optTruthy msgFrame.userName) = false →
        handleMessage freshWorld 0 msgFrame = freshWorld)) :=
  unjoined_frames_use_frame_fields freshWorld 0 ⟨0, true, none, none⟩ msgFrame
    rfl rfl (Or.inl rfl)

end Chats
